import Mathlib

set_option linter.unusedVariables false

/-!
Verification of the TEDxPS survey-form submission pipeline.

This file gives a shallow embedding of the repository sources
(src/app/components/TEDxSurvey.tsx, src/server/index.ts,
src/server/gcpbucket.ts, src/server/mongodb.ts and the TEDxSurveyModel
wrapper) and proves, or refutes, the specified properties of the
event-binding layer, the upload proxy, the submission aggregator, the
duplicate guard and the connection caches.

Conventions: JavaScript objects with string keys are embedded as
association lists in insertion order; `undefined` is `Option.none`;
mutable module or component state is threaded explicitly; external
collaborators (the document-store driver, the spreadsheet client, the
network) are modelled by their boundary contract, with their
success/failure supplied as explicit oracle fields of the world state.
-/

namespace SurveyForm

/-- Truthiness of an optional JS string value: undefined and the empty
string are falsy, every other string is truthy. -/
def truthy : Option String → Bool
  | none => false
  | some s => if s = "" then false else true

/-- JS short-circuit disjunction `a || b` on optional strings. -/
def jsOr (a b : Option String) : Option String :=
  if truthy a then a else b

/-! ## Client side: event binding (TEDxSurvey.tsx, binding effect)

The binding effect (TEDxSurvey.tsx lines 44 to 125) subscribes
`handleUpdateCss` to `onUpdateQuestionCssClasses`, `handleUploadFiles`
to `onUploadFiles` when an upload endpoint is configured,
`handleComplete` to `onComplete`, and for every entry of the
caller-supplied callback map whose name resolves to a channel of the
survey object that supports `add`, a fresh `dynamicHandler` to that
channel.  The returned cleanup removes `handleUpdateCss`,
`handleComplete` and, when an endpoint is configured,
`handleUploadFiles`. -/

/-- A named event channel of the form engine instance. -/
inductive Channel where
  | onUpdateQuestionCssClasses
  | onUploadFiles
  | onComplete
  | dynamic (name : String)
  deriving DecidableEq, Repr

/-- The handler reference subscribed to a channel: one of the three
built-in handlers of the effect, or the `dynamicHandler` closure created
for a caller-supplied callback name. -/
inductive SubscriberRef where
  | handleUpdateCss
  | handleUploadFiles
  | handleComplete
  | dynamicHandler (name : String)
  deriving DecidableEq, Repr

/-- The dynamic channel names actually bound: the effect iterates over
the entries of the callback map and keeps those names for which the
survey object exposes a channel with an `add` function
(TEDxSurvey.tsx lines 103 to 115). -/
def boundDynChannels (otherCallbackNames : List String)
    (surveyHasChannel : String → Bool) : List String :=
  otherCallbackNames.filter surveyHasChannel

/-- Every `add` call made by one run of the binding effect, as a list of
(channel, handler reference) pairs, in source order: CSS handler, upload
handler when an endpoint is configured, completion handler, then one
dynamic handler per bound caller-supplied callback name. -/
def effectAdds (uploadApiUrl : Option String) (dynChannels : List String) :
    List (Channel × SubscriberRef) :=
  [(Channel.onUpdateQuestionCssClasses, SubscriberRef.handleUpdateCss)]
    ++ (match uploadApiUrl with
        | some _ => [(Channel.onUploadFiles, SubscriberRef.handleUploadFiles)]
        | none => [])
    ++ [(Channel.onComplete, SubscriberRef.handleComplete)]
    ++ dynChannels.map (fun n => (Channel.dynamic n, SubscriberRef.dynamicHandler n))

/-- Every `remove` call made by the cleanup returned by the effect
(TEDxSurvey.tsx lines 117 to 125): the CSS handler, the completion
handler, and the upload handler when an endpoint is configured.  The
dynamic handlers are not removed by the source. -/
def cleanupRemoves (uploadApiUrl : Option String) :
    List (Channel × SubscriberRef) :=
  [(Channel.onUpdateQuestionCssClasses, SubscriberRef.handleUpdateCss),
   (Channel.onComplete, SubscriberRef.handleComplete)]
    ++ (match uploadApiUrl with
        | some _ => [(Channel.onUploadFiles, SubscriberRef.handleUploadFiles)]
        | none => [])

/-! ## Client side: dynamic handler indirection (TEDxSurvey.tsx)

The component keeps the caller-supplied callback map in a ref that a
dependency-free effect rewrites on every render (lines 36 to 42).  The
binding effect, whose dependency list is [survey, customCss,
uploadApiUrl], subscribes for each bound name a closure that reads the
current content of the ref at invocation time (lines 103 to 115).  We
model a subscription as either a direct handler value or the
ref-dereferencing indirection for a given name. -/

/-- A subscription entry: a handler captured by value, or the
`dynamicHandler` indirection that dereferences the callbacks ref for a
given name at every invocation. -/
inductive Invocation (H : Type) where
  | direct (h : H)
  | viaRef (name : String)

/-- The client-side state relevant to dynamic dispatch: the subscriber
list of the survey object (pairs of channel name and subscription), and
the current content of the callbacks ref. -/
structure ClientState (H : Type) where
  subs : List (String × Invocation H)
  refContents : String → Option H

/-- The dynamic part of one run of the binding effect: for every bound
callback name, one subscription holding the indirection for that name.
The handler values of the map at bind time are not captured. -/
def bindDynamic (H : Type) (names : List String)
    (surveyHasChannel : String → Bool) : List (String × Invocation H) :=
  (boundDynChannels names surveyHasChannel).map
    (fun n => (n, Invocation.viaRef n))

/-- Mounting the component with callback map m: the binding effect runs
once, and the ref holds m. -/
def mountClient (H : Type) (names : List String)
    (surveyHasChannel : String → Bool) (m : String → Option H) :
    ClientState H :=
  { subs := bindDynamic H names surveyHasChannel, refContents := m }

/-- A re-render in which only the caller-supplied callbacks changed: the
dependency-free effect rewrites the ref, and the binding effect does not
re-run because none of its dependencies changed.  The subscriber list is
untouched. -/
def rerenderCallbacks (H : Type) (st : ClientState H)
    (m2 : String → Option H) : ClientState H :=
  { st with refContents := m2 }

/-- Firing an engine event on channel c: every subscriber of c is
invoked; a direct subscription invokes its captured handler, the
indirection dereferences the ref at invocation time (and is a no-op when
the slot does not currently hold a function).  Returns the handlers that
actually get invoked, in subscription order. -/
def fireChannel (H : Type) (st : ClientState H) (c : String) : List H :=
  (st.subs.filter (fun p => p.fst = c)).filterMap
    (fun p =>
      match p.snd with
      | Invocation.direct h => some h
      | Invocation.viaRef n => st.refContents n)

/-! ## Client side: upload proxy (TEDxSurvey.tsx, handleUploadFiles)

The handler (lines 60 to 88) returns immediately when no endpoint is
configured.  Otherwise it first executes `options.callback = "success"`,
overwriting the engine-supplied callback function with the string
"success", and then issues the fetch whose continuations call
`options.callback("success", data)` on a parsed response and
`options.callback("error")` on any rejection.  We model the mutable
callback slot and the fetch outcome explicitly. -/

/-- The content of the mutable `options.callback` slot: the callback
function supplied by the form engine, or a plain string written over
it. -/
inductive CallbackSlot where
  | fn
  | str (s : String)
  deriving DecidableEq, Repr

/-- Outcome of the fetch chain `fetch(url).then(res => res.json())`:
either the response arrived and its body parsed to a value, or the
promise rejected (network error or parse error). -/
inductive FetchResult (B : Type) where
  | success (parsed : B)
  | failure
  deriving DecidableEq, Repr

/-- Result of attempting to call the current content of the callback
slot: an actual invocation of the engine callback, or a TypeError
because the slot holds a non-function value. -/
inductive CallAttempt (B : Type) where
  | invokedSuccess (d : B)
  | invokedError
  | typeError
  deriving DecidableEq, Repr

/-- Attempting `options.callback("success", d)` against the current slot
content. -/
def callSlotSuccess (B : Type) (slot : CallbackSlot) (d : B) : CallAttempt B :=
  match slot with
  | CallbackSlot.fn => CallAttempt.invokedSuccess d
  | CallbackSlot.str _ => CallAttempt.typeError

/-- Attempting `options.callback("error")` against the current slot
content. -/
def callSlotError (B : Type) (slot : CallbackSlot) : CallAttempt B :=
  match slot with
  | CallbackSlot.fn => CallAttempt.invokedError
  | CallbackSlot.str _ => CallAttempt.typeError

/-- Observable outcome of one handled upload event, from the point of
view of the form engine. -/
inductive UploadOutcome (B : Type) where
  | noEndpoint
  | calledSuccess (d : B)
  | calledError
  | threwTypeError
  deriving DecidableEq, Repr

/-- The promise chain of the handler: the first then-continuation calls
the slot with ("success", data); an exception there (or a rejected
fetch) lands in the catch-continuation which calls the slot with
("error"); an exception there is an unhandled rejection. -/
def runUploadChain (B : Type) (slot : CallbackSlot) (fetch : FetchResult B) :
    UploadOutcome B :=
  match fetch with
  | FetchResult.success d =>
    match callSlotSuccess B slot d with
    | CallAttempt.invokedSuccess d2 => UploadOutcome.calledSuccess d2
    | CallAttempt.invokedError => UploadOutcome.calledError
    | CallAttempt.typeError =>
      match callSlotError B slot with
      | CallAttempt.invokedError => UploadOutcome.calledError
      | _ => UploadOutcome.threwTypeError
  | FetchResult.failure =>
    match callSlotError B slot with
    | CallAttempt.invokedError => UploadOutcome.calledError
    | _ => UploadOutcome.threwTypeError

/-- The upload-files handler: return when no endpoint is configured;
otherwise overwrite the callback slot with the string "success"
(source line: options.callback = "success") and run the fetch chain
against the resulting slot content. -/
def handleUploadFiles (B : Type) (uploadApiUrl : Option String)
    (fetch : FetchResult B) : UploadOutcome B :=
  match uploadApiUrl with
  | none => UploadOutcome.noEndpoint
  | some _ =>
    let slot := CallbackSlot.str "success"
    runUploadChain B slot fetch

/-- Number of invocations of the engine-supplied callback function that
an outcome represents. -/
def engineCallbackInvocations (B : Type) : UploadOutcome B → Nat
  | UploadOutcome.noEndpoint => 0
  | UploadOutcome.calledSuccess _ => 1
  | UploadOutcome.calledError => 1
  | UploadOutcome.threwTypeError => 0

/-! ## Server side: document store and submission aggregation
(src/server/index.ts)

A response payload is a JS object: an association list from field name
to string value, in insertion order.  The document store is the list of
saved records; the mongoose collaborators countDocuments and save are
modelled by their boundary contract (count of matching records; append
of one record), with the possibility of a driver failure of save, and of
the spreadsheet append, supplied by boolean oracle fields of the world
state. -/

/-- A survey response payload: field name to value, in insertion
order. -/
abbrev Payload := List (String × String)

/-- Property access data[k] on a payload: the value of the first binding
of k, or undefined. -/
def lookupField (data : Payload) (k : String) : Option String :=
  (data.find? (fun p => p.fst = k)).map (fun p => p.snd)

/-- The expression data.email || data.Email of saveToMongoDB. -/
def emailOf (data : Payload) : Option String :=
  jsOr (lookupField data "email") (lookupField data "Email")

/-- The expression email || "anonymous" used for the persisted email
field. -/
def emailOrAnonymous (email : Option String) : String :=
  match jsOr email (some "anonymous") with
  | some s => s
  | none => "anonymous"

/-- A persisted survey response record, per the mongoose schema
(surveyId optional, email, data, createdAt with default now).  The save
path never sets surveyId. -/
structure SurveyRecord where
  surveyId : Option String
  email : String
  data : Payload
  createdAt : Nat
  deriving DecidableEq, Repr

/-- The document store: the list of saved records. -/
structure DB where
  records : List SurveyRecord
  deriving DecidableEq, Repr

/-- The spreadsheet: the list of appended rows. -/
structure Sheet where
  rows : List (List String)
  deriving DecidableEq, Repr

/-- The server-side world: both sinks, the current clock (for the
createdAt default), and oracle flags telling whether the document-store
save and the spreadsheet append would succeed at the collaborator. -/
structure World where
  db : DB
  sheet : Sheet
  now : Nat
  dbSaveOk : Bool
  sheetOk : Bool
  deriving DecidableEq, Repr

/-- Errors thrown by the submission pipeline. -/
inductive SubmitError where
  | missingEmail
  | duplicateSubmission (email : String)
  | dbWriteFailed
  | sheetWriteFailed
  deriving DecidableEq, Repr

/-- Document-store contract countDocuments with filter on email: the
number of saved records whose email equals the key. -/
def countDocuments (db : DB) (email : String) : Nat :=
  (db.records.filter (fun r => r.email = email)).length

/-- checkDuplicateEmail (src/server/index.ts lines 33 to 38): query the
count of records matching the email and return whether it is positive. -/
def checkDuplicateEmail (db : DB) (email : String) : Bool :=
  decide (0 < countDocuments db email)

/-- The record constructed by new SurveyResponse in saveToMongoDB:
email || "anonymous", the full payload under data, no surveyId, and the
server-assigned creation timestamp. -/
def mkRecord (w : World) (data : Payload) : SurveyRecord :=
  { surveyId := none
    email := emailOrAnonymous (emailOf data)
    data := data
    createdAt := w.now }

/-- The save step of saveToMongoDB: construct the record and persist it;
a driver failure of save rejects. -/
def doSave (w : World) (data : Payload) :
    World × Except SubmitError SurveyRecord :=
  if w.dbSaveOk then
    ({ w with db := DB.mk (w.db.records ++ [mkRecord w data]) },
      Except.ok (mkRecord w data))
  else
    (w, Except.error SubmitError.dbWriteFailed)

/-- saveToMongoDB (src/server/index.ts lines 46 to 66): read
data.email || data.Email; when checkDuplicate is set, throw a
missing-key error if that value is falsy, then throw a
duplicate-submission error carrying the key if a matching record exists;
otherwise persist. -/
def saveToMongoDB (w : World) (data : Payload) (checkDuplicate : Bool) :
    World × Except SubmitError SurveyRecord :=
  if checkDuplicate then
    if truthy (emailOf data) then
      match emailOf data with
      | some e =>
        if checkDuplicateEmail w.db e then
          (w, Except.error (SubmitError.duplicateSubmission e))
        else
          doSave w data
      | none => (w, Except.error SubmitError.missingEmail)
    else
      (w, Except.error SubmitError.missingEmail)
  else
    doSave w data

/-- Object.values on a payload: the values in insertion order. -/
def objectValues (data : Payload) : List String :=
  data.map (fun p => p.snd)

/-- Modelled from the spec: the source file googleSheets.ts that
provides appendToGoogleSheet is not among the repository sources; per
the spreadsheet contract of the spec,
append(spreadsheetId, range, apiKey, values, accessToken) appends the
given rows to the configured range and returns a result, and a failure
of the collaborator is thrown to the caller.  The result is modelled as
the number of appended rows. -/
def appendToGoogleSheet (w : World) (spreadsheetId range apiKey : String)
    (values : List (List String)) (accessToken : Option String) :
    World × Except SubmitError Nat :=
  if w.sheetOk then
    ({ w with sheet := Sheet.mk (w.sheet.rows ++ values) },
      Except.ok values.length)
  else
    (w, Except.error SubmitError.sheetWriteFailed)

/-- The googleSheet sub-config of the submission options. -/
structure GoogleSheetConfig where
  spreadsheetId : String
  range : String
  apiKey : String
  accessToken : Option String
  deriving DecidableEq, Repr

/-- The gcp sub-config of the submission options (credentials modelled
as an opaque string). -/
structure GcpConfig where
  credentials : String
  bucketName : String
  deriving DecidableEq, Repr

/-- The options object of handleSurveySubmission. -/
structure SubmitOptions where
  mongo : Bool
  mongoUri : Option String
  checkDuplicate : Bool
  googleSheet : Option GoogleSheetConfig
  gcp : Option GcpConfig
  deriving DecidableEq, Repr

/-- The results object of handleSurveySubmission: each key present only
when set by the corresponding step. -/
structure Results where
  mongo : Option SurveyRecord
  sheets : Option Nat
  deriving DecidableEq, Repr

/-- The Google Sheets step of handleSurveySubmission (lines 122 to 133):
when the googleSheet option is set, project the payload values into a
single row and append it; a thrown append error propagates. -/
def sheetsStep (w : World) (data : Payload) (options : SubmitOptions)
    (mongoRes : Option SurveyRecord) : World × Except SubmitError Results :=
  match options.googleSheet with
  | some gs =>
    match appendToGoogleSheet w gs.spreadsheetId gs.range gs.apiKey
        [objectValues data] gs.accessToken with
    | (w2, Except.error e) => (w2, Except.error e)
    | (w2, Except.ok n) =>
      (w2, Except.ok { mongo := mongoRes, sheets := some n })
  | none => (w, Except.ok { mongo := mongoRes, sheets := none })

/-- handleSurveySubmission (src/server/index.ts lines 96 to 135): first,
when the mongo option is set, await saveToMongoDB (a thrown error
propagates and the sheets step is skipped); then, when the googleSheet
option is set, append one row of the payload values. -/
def handleSurveySubmission (w : World) (data : Payload)
    (options : SubmitOptions) : World × Except SubmitError Results :=
  if options.mongo then
    match saveToMongoDB w data options.checkDuplicate with
    | (w2, Except.error e) => (w2, Except.error e)
    | (w2, Except.ok r) => sheetsStep w2 data options (some r)
  else
    sheetsStep w data options none

/-! ## Server side: object-store connection cache
(src/server/gcpbucket.ts)

The module keeps cachedStorage and cachedBucket in module-level
variables.  getBucket returns the cached bucket when cachedStorage is
non-null and the cached bucket exists with the requested name; otherwise
it constructs a new Storage client from the credentials and a new bucket
handle.  Handle construction is modelled with a fresh-id counter so that
distinct constructions are distinguishable. -/

/-- A constructed Storage client handle. -/
structure StorageHandle where
  credentials : String
  id : Nat
  deriving DecidableEq, Repr

/-- A constructed bucket handle, recording the credentials of the
Storage client it was obtained from. -/
structure BucketHandle where
  name : String
  credentials : String
  id : Nat
  deriving DecidableEq, Repr

/-- The module-level cache of gcpbucket.ts plus a fresh-id counter
modelling construction of new handles. -/
structure BucketCache where
  cachedStorage : Option StorageHandle
  cachedBucket : Option BucketHandle
  nextId : Nat
  deriving DecidableEq, Repr

/-- The miss path of getBucket: construct a new Storage from the config
credentials, take its bucket handle for the requested name, and cache
both. -/
def buildBucket (st : BucketCache) (config : GcpConfig) :
    BucketCache × BucketHandle :=
  let storage : StorageHandle :=
    { credentials := config.credentials, id := st.nextId }
  let bucket : BucketHandle :=
    { name := config.bucketName
      credentials := storage.credentials
      id := st.nextId + 1 }
  ({ cachedStorage := some storage
     cachedBucket := some bucket
     nextId := st.nextId + 2 }, bucket)

/-- getBucket (src/server/gcpbucket.ts lines 4 to 21): return the cached
bucket when cachedStorage is set and the cached bucket name equals the
requested bucket name; otherwise construct and cache anew.  The
credentials are not compared on the hit path. -/
def getBucket (st : BucketCache) (config : GcpConfig) :
    BucketCache × BucketHandle :=
  match st.cachedStorage, st.cachedBucket with
  | some _, some b =>
    if b.name = config.bucketName then (st, b)
    else buildBucket st config
  | _, _ => buildBucket st config

/-! ## Server side: document-store connection cache
(src/server/mongodb.ts, dbConnect)

The module keeps a global cache object with conn and promise slots.
dbConnect resolves the connection string as uri || MONGO_URI and throws
when it is falsy; returns the cached connection when present; otherwise
starts (or joins) the pending connect promise and awaits it, clearing
the promise slot and rethrowing when the attempt rejects.  Whether the
underlying connect attempt succeeds is an explicit oracle argument; a
fresh-id counter distinguishes distinct established connections. -/

/-- An established database connection. -/
structure Conn where
  id : Nat
  deriving DecidableEq, Repr

/-- Errors thrown by dbConnect. -/
inductive DbConnectError where
  | missingUri
  | connectFailed
  deriving DecidableEq, Repr

/-- The global mongoose cache: the established connection, the pending
connect promise (whose eventual outcome is recorded as a Bool), and a
fresh-id counter for new connections. -/
structure MongoCache where
  conn : Option Conn
  promise : Option Bool
  nextConnId : Nat
  deriving DecidableEq, Repr

/-- dbConnect (src/server/mongodb.ts lines 15 to 44): compute
uri || MONGO_URI and throw when falsy; return the cached connection when
present; otherwise install the connect promise when none is pending,
await it, cache and return the connection on success, and on rejection
clear the promise slot and rethrow. -/
def dbConnect (cache : MongoCache) (uri : Option String)
    (envUri : Option String) (attemptOk : Bool) :
    MongoCache × Except DbConnectError Conn :=
  let connectionString := jsOr uri envUri
  if truthy connectionString then
    match cache.conn with
    | some c => (cache, Except.ok c)
    | none =>
      let cache1 :=
        match cache.promise with
        | some _ => cache
        | none => { cache with promise := some attemptOk }
      match cache1.promise with
      | some true =>
        let c : Conn := { id := cache1.nextConnId }
        ({ cache1 with
            conn := some c
            nextConnId := cache1.nextConnId + 1 }, Except.ok c)
      | _ =>
        ({ cache1 with promise := none },
          Except.error DbConnectError.connectFailed)
  else
    (cache, Except.error DbConnectError.missingUri)

/-! ## Helper lemmas -/

/-- Firing a channel that none of the bound names matches invokes
nothing. -/
lemma fireChannel_bindDynamic_not_mem (H : Type) (names : List String)
    (hasChannel : String → Bool) (m : String → Option H) (c : String)
    (hn : c ∉ names) :
    fireChannel H (ClientState.mk (bindDynamic H names hasChannel) m) c = [] := by
  induction names with
  | nil => rfl
  | cons a tl ih =>
    have ha : a ≠ c := fun h => hn (h ▸ List.mem_cons_self a tl)
    have htl : c ∉ tl := fun h => hn (List.mem_cons_of_mem a h)
    simp only [fireChannel, bindDynamic, boundDynChannels, List.filter_cons] at *
    by_cases hch : hasChannel a = true
    · simpa [hch, List.filter_cons, ha] using ih htl
    · simpa [hch] using ih htl

/-- Firing a bound channel dispatches through the ref: when the names
are distinct, the bound name c is kept by the channel filter, and m c is
the one handler invoked. -/
lemma fireChannel_bindDynamic_mem (H : Type) (names : List String)
    (hasChannel : String → Bool) (m : String → Option H) (c : String) (h : H)
    (hnd : names.Nodup) (hmem : c ∈ names) (hch : hasChannel c = true)
    (hm : m c = some h) :
    fireChannel H (ClientState.mk (bindDynamic H names hasChannel) m) c = [h] := by
  induction names with
  | nil => cases hmem
  | cons a tl ih =>
    rcases List.mem_cons.mp hmem with rfl | hmem2
    · have htl : c ∉ tl := (List.nodup_cons.mp hnd).1
      have hrest := fireChannel_bindDynamic_not_mem H tl hasChannel m c htl
      simp only [fireChannel, bindDynamic, boundDynChannels, List.filter_cons,
        hch, if_true] at *
      simp [List.filter_cons, List.filterMap_cons, hm, hrest]
    · have ha : a ≠ c := by
        rintro rfl
        exact (List.nodup_cons.mp hnd).1 hmem2
      have ih2 := ih (List.nodup_cons.mp hnd).2 hmem2
      simp only [fireChannel, bindDynamic, boundDynChannels, List.filter_cons] at *
      by_cases hcha : hasChannel a = true
      · simpa [hcha, List.filter_cons, ha] using ih2
      · simpa [hcha] using ih2

/-- doSave never touches the spreadsheet state. -/
lemma doSave_sheet (w : World) (data : Payload) :
    (doSave w data).fst.sheet = w.sheet := by
  unfold doSave
  split <;> rfl

/-- saveToMongoDB never touches the spreadsheet state. -/
lemma saveToMongoDB_sheet (w : World) (data : Payload) (cd : Bool) :
    (saveToMongoDB w data cd).fst.sheet = w.sheet := by
  unfold saveToMongoDB
  repeat' split
  all_goals simp [doSave_sheet]

/-! ## Claims -/

/-- Claim C1: the claim states that for every FormInstance lifetime the
cleanup returned by the binding effect removes every subscription the
effect added, per channel and per handler reference.  The source does
not remove the dynamically-bound handlers: with one caller-supplied
callback for an existing channel (here onValueChanged) and no upload
endpoint, the effect makes one add on the dynamic channel while the
cleanup makes zero removes there, so the add and remove counts differ. -/
theorem c1_cleanup_leaks_dynamic_handlers :
    ((effectAdds none (boundDynChannels ["onValueChanged"] (fun _ => true))).count
        (Channel.dynamic "onValueChanged", SubscriberRef.dynamicHandler "onValueChanged") = 1)
    ∧ ((cleanupRemoves none).count
        (Channel.dynamic "onValueChanged", SubscriberRef.dynamicHandler "onValueChanged") = 0) := by
  constructor <;> rfl

/-- Claim C2: the claim states that with a configured endpoint exactly
one of the success and error callbacks of the upload event is invoked
exactly once.  The source first overwrites the callback slot with the
string "success", so both later call attempts hit a non-function value:
for every fetch outcome the engine-supplied callback is invoked zero
times. -/
theorem c2_upload_callback_never_invoked (B : Type) (url : String)
    (fetch : FetchResult B) :
    engineCallbackInvocations B (handleUploadFiles B (some url) fetch) = 0 := by
  cases fetch <;> rfl

/-- Claim C6: binding subscribes an indirection, not the handler value:
after a re-render that only replaces the caller-supplied callback map,
the subscriber list is unchanged (no additional add) and the next fired
event on a bound channel invokes exactly the new handler from the
updated map, whatever handler the map held at bind time. -/
theorem c6_latest_handler_dispatch (H : Type) (names : List String)
    (hasChannel : String → Bool) (m1 m2 : String → Option H) (c : String)
    (h2 : H) (hnd : names.Nodup) (hmem : c ∈ names)
    (hch : hasChannel c = true) (hm2 : m2 c = some h2) :
    (rerenderCallbacks H (mountClient H names hasChannel m1) m2).subs
        = (mountClient H names hasChannel m1).subs
    ∧ fireChannel H (rerenderCallbacks H (mountClient H names hasChannel m1) m2) c
        = [h2] :=
  ⟨rfl, fireChannel_bindDynamic_mem H names hasChannel m2 c h2 hnd hmem hch hm2⟩

/-- Claim C6 witness: one callback name onValueChanged, handler 1 at
bind time replaced by handler 2 on re-render; the fired event invokes
exactly handler 2 and the subscriber list is unchanged. -/
theorem c6_latest_handler_dispatch_witness :
    (rerenderCallbacks Nat
        (mountClient Nat ["onValueChanged"] (fun _ => true) (fun _ => some 1))
        (fun _ => some 2)).subs
      = (mountClient Nat ["onValueChanged"] (fun _ => true) (fun _ => some 1)).subs
    ∧ fireChannel Nat
        (rerenderCallbacks Nat
          (mountClient Nat ["onValueChanged"] (fun _ => true) (fun _ => some 1))
          (fun _ => some 2)) "onValueChanged"
      = [2] :=
  c6_latest_handler_dispatch Nat ["onValueChanged"] (fun _ => true)
    (fun _ => some 1) (fun _ => some 2) "onValueChanged" 2
    (by simp) (by simp) rfl rfl

/-- Claim C7: checkDuplicateEmail returns true exactly when the count of
records matching the key is positive; in particular it is false when no
record matches the key, and true for the key of a record that doSave has
just persisted. -/
theorem c7_duplicate_guard (db : DB) (e : String) (w w2 : World)
    (data : Payload) (r : SurveyRecord) :
    (checkDuplicateEmail db e = true ↔ 0 < countDocuments db e)
    ∧ ((∀ x ∈ db.records, x.email ≠ e) → checkDuplicateEmail db e = false)
    ∧ (doSave w data = (w2, Except.ok r) →
        checkDuplicateEmail w2.db r.email = true) := by
  refine ⟨by simp [checkDuplicateEmail], ?_, ?_⟩
  · intro hnone
    simp only [checkDuplicateEmail, countDocuments, decide_eq_false_iff_not,
      not_lt, Nat.le_zero, List.length_eq_zero]
    exact List.filter_eq_nil_iff.mpr (fun x hx => by simp [hnone x hx])
  · intro hsave
    unfold doSave at hsave
    split at hsave
    · injection hsave with h1 h2
      injection h2 with h2
      subst h1
      subst h2
      simp [checkDuplicateEmail, countDocuments, List.filter_append]
    · cases hsave

/-- Claim C7 witness: checkDuplicateEmail is false on an empty store for
the key a@x.com, and true for that key once a record carrying it has
been saved by doSave. -/
theorem c7_duplicate_guard_witness :
    checkDuplicateEmail (DB.mk []) "a@x.com" = false
    ∧ checkDuplicateEmail
        (DB.mk ([] ++
          [SurveyRecord.mk none "a@x.com" [("email", "a@x.com")] 5]))
        "a@x.com" = true :=
  ⟨(c7_duplicate_guard (DB.mk []) "a@x.com"
      (World.mk (DB.mk []) (Sheet.mk []) 5 true true)
      (World.mk
        (DB.mk ([] ++
          [SurveyRecord.mk none "a@x.com" [("email", "a@x.com")] 5]))
        (Sheet.mk []) 5 true true)
      [("email", "a@x.com")]
      (SurveyRecord.mk none "a@x.com" [("email", "a@x.com")] 5)).2.1
      (by simp),
   (c7_duplicate_guard (DB.mk []) "a@x.com"
      (World.mk (DB.mk []) (Sheet.mk []) 5 true true)
      (World.mk
        (DB.mk ([] ++
          [SurveyRecord.mk none "a@x.com" [("email", "a@x.com")] 5]))
        (Sheet.mk []) 5 true true)
      [("email", "a@x.com")]
      (SurveyRecord.mk none "a@x.com" [("email", "a@x.com")] 5)).2.2
      rfl⟩

/-- Claim C10: a payload with neither an email nor an Email field, saved
with duplicate-checking disabled and a healthy driver, does not fail: it
persists exactly one record whose email is the literal anonymous, whose
data is the full payload, and whose createdAt is the server clock. -/
theorem c10_anonymous_fallback (w : World) (data : Payload)
    (hemail : lookupField data "email" = none)
    (hEmail : lookupField data "Email" = none)
    (hok : w.dbSaveOk = true) :
    saveToMongoDB w data false
      = ({ w with db := DB.mk (w.db.records ++
            [SurveyRecord.mk none "anonymous" data w.now]) },
          Except.ok (SurveyRecord.mk none "anonymous" data w.now)) := by
  have hnone : emailOf data = none := by
    simp [emailOf, jsOr, hemail, hEmail, truthy]
  simp [saveToMongoDB, doSave, mkRecord, hok, hnone, emailOrAnonymous, jsOr,
    truthy]

/-- Claim C10 witness: the payload with single field name saved into an
empty store yields the anonymous record carrying the payload. -/
theorem c10_anonymous_fallback_witness :
    saveToMongoDB (World.mk (DB.mk []) (Sheet.mk []) 7 true true)
        [("name", "Ann")] false
      = (World.mk
          (DB.mk ([] ++
            [SurveyRecord.mk none "anonymous" [("name", "Ann")] 7]))
          (Sheet.mk []) 7 true true,
          Except.ok (SurveyRecord.mk none "anonymous" [("name", "Ann")] 7)) :=
  c10_anonymous_fallback (World.mk (DB.mk []) (Sheet.mk []) 7 true true)
    [("name", "Ann")] rfl rfl rfl

/-- Claim C3 counterexample: the claim quantifies over every sink
configuration with checkDuplicate set, but the duplicate check only runs
inside the document-store step: with checkDuplicate set, the mongo
option unset and the spreadsheet configured, a payload without the
uniqueness key does not fail — the call succeeds and the spreadsheet
sink is written. -/
theorem c3_counterexample :
    handleSurveySubmission (World.mk (DB.mk []) (Sheet.mk []) 0 true true)
        [("name", "Ann")]
        (SubmitOptions.mk false none true
          (some (GoogleSheetConfig.mk "sheet1" "A:B" "key" none)) none)
      = (World.mk (DB.mk []) (Sheet.mk [["Ann"]]) 0 true true,
          Except.ok (Results.mk none (some 1))) := rfl

/-- Claim C3 (amended): with the document-store sink enabled
(options.mongo set) and duplicate-checking requested (checkDuplicate
set), a payload without a truthy uniqueness key fails with the
missing-key error, and a payload whose key already has a matching record
fails with the duplicate-submission error carrying that key; in both
cases the call returns with the world unchanged, so no sink is
written. -/
theorem c3_amended_precondition (w : World) (data : Payload)
    (opts : SubmitOptions) (hm : opts.mongo = true)
    (hc : opts.checkDuplicate = true) :
    (truthy (emailOf data) = false →
        handleSurveySubmission w data opts
          = (w, Except.error SubmitError.missingEmail))
    ∧ (∀ e, emailOf data = some e → e ≠ "" →
        checkDuplicateEmail w.db e = true →
        handleSurveySubmission w data opts
          = (w, Except.error (SubmitError.duplicateSubmission e))) := by
  constructor
  · intro ht
    simp [handleSurveySubmission, saveToMongoDB, hm, hc, ht]
  · intro e he hne hd
    have ht : truthy (emailOf data) = true := by simp [he, truthy, hne]
    simp [handleSurveySubmission, saveToMongoDB, hm, hc, ht, he, hd, truthy,
      hne]

/-- Claim C3 witness: a store already holding a record for a@x.com
rejects a second submission for the same key with the
duplicate-submission error, and the world (both sinks) is unchanged. -/
theorem c3_amended_precondition_witness :
    handleSurveySubmission
        (World.mk
          (DB.mk [SurveyRecord.mk none "a@x.com" [("email", "a@x.com")] 0])
          (Sheet.mk []) 0 true true)
        [("email", "a@x.com")]
        (SubmitOptions.mk true none true
          (some (GoogleSheetConfig.mk "sheet1" "A:B" "key" none)) none)
      = (World.mk
          (DB.mk [SurveyRecord.mk none "a@x.com" [("email", "a@x.com")] 0])
          (Sheet.mk []) 0 true true,
          Except.error (SubmitError.duplicateSubmission "a@x.com")) :=
  (c3_amended_precondition
      (World.mk
        (DB.mk [SurveyRecord.mk none "a@x.com" [("email", "a@x.com")] 0])
        (Sheet.mk []) 0 true true)
      [("email", "a@x.com")]
      (SubmitOptions.mk true none true
        (some (GoogleSheetConfig.mk "sheet1" "A:B" "key" none)) none)
      rfl rfl).2
    "a@x.com" rfl (by decide) (by decide)

/-- When sheetsStep returns successfully, the mongo key of the result is
exactly the record passed in and the sheets key is present exactly when
the googleSheet option is set. -/
lemma sheetsStep_ok_keys (w : World) (data : Payload) (opts : SubmitOptions)
    (mr : Option SurveyRecord) (w2 : World) (res : Results)
    (h : sheetsStep w data opts mr = (w2, Except.ok res)) :
    res.mongo = mr ∧ (res.sheets.isSome = true ↔ opts.googleSheet.isSome = true) := by
  unfold sheetsStep at h
  split at h
  case h_1 gs heq =>
    split at h
    case h_1 w3 e happ => exact absurd h (by simp)
    case h_2 w3 n happ =>
      injection h with h1 h2
      injection h2 with h2
      subst h2
      simp [heq]
  case h_2 heq =>
    injection h with h1 h2
    injection h2 with h2
    subst h2
    simp [heq]

/-- Claim C4: on a successful call the mongo key of the result is
present exactly when the mongo option is set and the sheets key exactly
when the googleSheet option is set; and when the mongo option is set, an
error thrown by saveToMongoDB (duplicate check, missing key, or driver
failure) propagates out of the call unchanged with the spreadsheet left
untouched — the sheet write is skipped. -/
theorem c4_sequential_sinks (w : World) (data : Payload)
    (opts : SubmitOptions) :
    (∀ w2 res, handleSurveySubmission w data opts = (w2, Except.ok res) →
        ((res.mongo.isSome = true ↔ opts.mongo = true)
          ∧ (res.sheets.isSome = true ↔ opts.googleSheet.isSome = true)))
    ∧ (∀ w2 e, opts.mongo = true →
        saveToMongoDB w data opts.checkDuplicate = (w2, Except.error e) →
        (handleSurveySubmission w data opts = (w2, Except.error e)
          ∧ w2.sheet = w.sheet)) := by
  constructor
  · intro w2 res h
    unfold handleSurveySubmission at h
    split at h
    case isTrue hm =>
      split at h
      case h_1 w3 e hs => exact absurd h (by simp)
      case h_2 w3 r hs =>
        obtain ⟨hmr, hsheets⟩ := sheetsStep_ok_keys w3 data opts (some r) w2 res h
        refine ⟨?_, hsheets⟩
        simp [hmr, hm]
    case isFalse hm =>
      obtain ⟨hmr, hsheets⟩ := sheetsStep_ok_keys w data opts none w2 res h
      refine ⟨?_, hsheets⟩
      simp [hmr, hm]
  · intro w2 e hm hs
    refine ⟨?_, ?_⟩
    · simp [handleSurveySubmission, hm, hs]
    · have hx := saveToMongoDB_sheet w data opts.checkDuplicate
      rw [hs] at hx
      exact hx

/-- Claim C4 witness: a submission with both sinks configured and a
healthy world succeeds with both result keys present, matching the set
options. -/
theorem c4_sequential_sinks_witness :
    ((Results.mk
        (some (SurveyRecord.mk none "a@x.com" [("email", "a@x.com")] 0))
        (some 1)).mongo.isSome = true
      ↔ (SubmitOptions.mk true none false
          (some (GoogleSheetConfig.mk "sheet1" "A:B" "key" none)) none).mongo
          = true)
    ∧ ((Results.mk
        (some (SurveyRecord.mk none "a@x.com" [("email", "a@x.com")] 0))
        (some 1)).sheets.isSome = true
      ↔ (SubmitOptions.mk true none false
          (some (GoogleSheetConfig.mk "sheet1" "A:B" "key" none))
          none).googleSheet.isSome = true) :=
  (c4_sequential_sinks (World.mk (DB.mk []) (Sheet.mk []) 0 true true)
      [("email", "a@x.com")]
      (SubmitOptions.mk true none false
        (some (GoogleSheetConfig.mk "sheet1" "A:B" "key" none)) none)).1
    (World.mk
      (DB.mk [SurveyRecord.mk none "a@x.com" [("email", "a@x.com")] 0])
      (Sheet.mk [["a@x.com"]]) 0 true true)
    (Results.mk
      (some (SurveyRecord.mk none "a@x.com" [("email", "a@x.com")] 0))
      (some 1))
    rfl

/-- Claim C5: a submission with only the spreadsheet sink configured and
an accepting spreadsheet appends exactly one row, whose cells are the
payload values in insertion order, and returns success with only the
sheets key; the returned world differs from the input only in the sheet,
so the document store is not touched. -/
theorem c5_sheet_only_roundtrip (w : World) (data : Payload)
    (gs : GoogleSheetConfig) (mongoUri : Option String) (cd : Bool)
    (gcp : Option GcpConfig) (hsheet : w.sheetOk = true) :
    handleSurveySubmission w data
        (SubmitOptions.mk false mongoUri cd (some gs) gcp)
      = ({ w with sheet := Sheet.mk (w.sheet.rows ++ [objectValues data]) },
          Except.ok (Results.mk none (some 1))) := by
  simp [handleSurveySubmission, sheetsStep, appendToGoogleSheet, hsheet]

/-- Claim C5 witness: the payload with name Ann and email a@x.com,
submitted with only the spreadsheet configured, appends the single row
of its two values in order and leaves the document store empty. -/
theorem c5_sheet_only_roundtrip_witness :
    handleSurveySubmission (World.mk (DB.mk []) (Sheet.mk []) 0 true true)
        [("name", "Ann"), ("email", "a@x.com")]
        (SubmitOptions.mk false none false
          (some (GoogleSheetConfig.mk "sheet1" "A:B" "key" none)) none)
      = (World.mk (DB.mk []) (Sheet.mk [["Ann", "a@x.com"]]) 0 true true,
          Except.ok (Results.mk none (some 1))) :=
  c5_sheet_only_roundtrip (World.mk (DB.mk []) (Sheet.mk []) 0 true true)
    [("name", "Ann"), ("email", "a@x.com")]
    (GoogleSheetConfig.mk "sheet1" "A:B" "key" none) none false none rfl

/-- Claim C8 counterexample: the claim states a new Storage and bucket
handle is constructed exactly when the credentials or the target bucket
differ from the cached configuration.  The hit test of getBucket only
compares the bucket name: after caching with credentials credA, a call
with different credentials credB but the same bucket name returns the
cached handle built from credA and constructs nothing (the cache state
is unchanged). -/
theorem c8_counterexample :
    getBucket
        (getBucket (BucketCache.mk none none 0)
          (GcpConfig.mk "credA" "bucket")).fst
        (GcpConfig.mk "credB" "bucket")
      = ((getBucket (BucketCache.mk none none 0)
            (GcpConfig.mk "credA" "bucket")).fst,
          BucketHandle.mk "bucket" "credA" 1) := rfl

/-- Claim C8 (amended): getBucket returns the cached handle exactly when
the cache is populated and the cached bucket name equals the requested
one (credentials are not compared); in every other case it constructs a
fresh Storage client and bucket handle from the requested configuration
and caches them; and dbConnect, called with a truthy connection string,
returns its cached connection unchanged when one is present. -/
theorem c8_amended_connection_caching (st : BucketCache) (config : GcpConfig)
    (cache : MongoCache) (uri envUri : Option String) (ok : Bool) (c : Conn) :
    (∀ s b, st.cachedStorage = some s → st.cachedBucket = some b →
        b.name = config.bucketName → getBucket st config = (st, b))
    ∧ ((st.cachedStorage = none ∨ st.cachedBucket = none ∨
          (∃ b, st.cachedBucket = some b ∧ b.name ≠ config.bucketName)) →
        getBucket st config = buildBucket st config)
    ∧ ((buildBucket st config).snd
          = BucketHandle.mk config.bucketName config.credentials (st.nextId + 1)
        ∧ (buildBucket st config).fst.nextId = st.nextId + 2)
    ∧ (truthy (jsOr uri envUri) = true → cache.conn = some c →
        dbConnect cache uri envUri ok = (cache, Except.ok c)) := by
  refine ⟨?_, ?_, ⟨rfl, rfl⟩, ?_⟩
  · intro s b hs hb hn
    simp [getBucket, hs, hb, hn]
  · intro hmiss
    rcases hst : st.cachedStorage with _ | s
    · simp [getBucket, hst]
    · rcases hbk : st.cachedBucket with _ | b
      · simp [getBucket, hst, hbk]
      · rcases hmiss with h | h | ⟨b2, hb2, hne⟩
        · exact absurd hst (h ▸ by simp)
        · exact absurd hbk (h ▸ by simp)
        · rw [hbk] at hb2
          injection hb2 with hb2
          subst hb2
          simp [getBucket, hst, hbk, hne]
  · intro ht hc
    simp [dbConnect, ht, hc]

/-- Claim C8 witness: a populated cache for bucket with credentials
credA is hit by a request for the same bucket name, and a cached mongo
connection is returned unchanged. -/
theorem c8_amended_connection_caching_witness :
    getBucket
        (BucketCache.mk (some (StorageHandle.mk "credA" 0))
          (some (BucketHandle.mk "bucket" "credA" 1)) 2)
        (GcpConfig.mk "credA" "bucket")
      = (BucketCache.mk (some (StorageHandle.mk "credA" 0))
          (some (BucketHandle.mk "bucket" "credA" 1)) 2,
          BucketHandle.mk "bucket" "credA" 1)
    ∧ dbConnect (MongoCache.mk (some (Conn.mk 0)) none 1)
        (some "mongodb://localhost") none true
      = (MongoCache.mk (some (Conn.mk 0)) none 1, Except.ok (Conn.mk 0)) :=
  ⟨(c8_amended_connection_caching
      (BucketCache.mk (some (StorageHandle.mk "credA" 0))
        (some (BucketHandle.mk "bucket" "credA" 1)) 2)
      (GcpConfig.mk "credA" "bucket")
      (MongoCache.mk (some (Conn.mk 0)) none 1)
      (some "mongodb://localhost") none true (Conn.mk 0)).1
      (StorageHandle.mk "credA" 0) (BucketHandle.mk "bucket" "credA" 1)
      rfl rfl rfl,
   (c8_amended_connection_caching
      (BucketCache.mk (some (StorageHandle.mk "credA" 0))
        (some (BucketHandle.mk "bucket" "credA" 1)) 2)
      (GcpConfig.mk "credA" "bucket")
      (MongoCache.mk (some (Conn.mk 0)) none 1)
      (some "mongodb://localhost") none true (Conn.mk 0)).2.2.2
      rfl rfl⟩

/-- Claim C9: dbConnect fails fast with the missing-uri error, leaving
the cache untouched, when neither the argument nor the environment
provides a truthy connection string; and when a fresh connect attempt
rejects, the returned cache holds neither a connection nor the failed
promise, so a subsequent call re-attempts the connection and
succeeds. -/
theorem c9_dbConnect_failfast_and_retry (cache : MongoCache)
    (uri envUri : Option String) :
    (truthy (jsOr uri envUri) = false →
        ∀ ok, dbConnect cache uri envUri ok
          = (cache, Except.error DbConnectError.missingUri))
    ∧ (truthy (jsOr uri envUri) = true → cache.conn = none →
        cache.promise = none →
        (dbConnect cache uri envUri false
            = ({ cache with promise := none },
                Except.error DbConnectError.connectFailed)
          ∧ ∀ cache2, dbConnect cache uri envUri false
              = (cache2, Except.error DbConnectError.connectFailed) →
              (cache2.promise = none ∧ cache2.conn = none
                ∧ (dbConnect cache2 uri envUri true).snd
                    = Except.ok (Conn.mk cache2.nextConnId)))) := by
  constructor
  · intro ht ok
    simp [dbConnect, ht]
  · intro ht hconn hp
    have hfail : dbConnect cache uri envUri false
        = ({ cache with promise := none },
            Except.error DbConnectError.connectFailed) := by
      simp [dbConnect, ht, hconn, hp]
    refine ⟨hfail, ?_⟩
    intro cache2 h
    rw [hfail] at h
    injection h with h1 h2
    subst h1
    exact ⟨rfl, hconn, by simp [dbConnect, ht, hconn]⟩

/-- Claim C9 witness: with no connection string at all the call fails
fast with the missing-uri error and the cache is untouched; with a
connection string and a rejecting connect attempt the call fails with
the connect error and retains no promise. -/
theorem c9_dbConnect_failfast_and_retry_witness :
    dbConnect (MongoCache.mk none none 0) none none true
      = (MongoCache.mk none none 0, Except.error DbConnectError.missingUri)
    ∧ dbConnect (MongoCache.mk none none 0) (some "mongodb://localhost")
        none false
      = (MongoCache.mk none none 0,
          Except.error DbConnectError.connectFailed) :=
  ⟨(c9_dbConnect_failfast_and_retry (MongoCache.mk none none 0)
      none none).1 rfl true,
   ((c9_dbConnect_failfast_and_retry (MongoCache.mk none none 0)
      (some "mongodb://localhost") none).2 rfl rfl rfl).1⟩

end SurveyForm
